import Mathlib

/-!
Shallow embedding of the per-frame record-and-submit scheduler implemented in
src/src/vsg/viewer/Viewer.cpp of the VulkanSceneGraph repository.

Vulkan handles (devices, queues, windows, semaphores) are replaced by small
identifiers (Nat / Int), wall-clock instants by Nat and std::vector by List.
Each definition is a direct transliteration of the corresponding C++ member
function; where a component used by Viewer.cpp is not among the provided
source files (the Barrier implementation), its state is modelled from the
specification and marked as such in its doc comment.
-/

namespace VSG

/-- Result codes returned by Window::acquireNextImage.  The four named error
codes are exactly the ones Viewer::acquireNextFrame treats as recoverable;
every other non-success code is collapsed into otherError with its numeric
value. -/
inductive VkResult where
  | success
  | errorSurfaceLost
  | errorDeviceLost
  | errorOutOfDate
  | errorFullScreenExclusiveModeLost
  | otherError (code : Int)
deriving DecidableEq, Repr

/-- FrameStamp: creation time plus frame counter, immutable once created. -/
structure FrameStamp where
  time : Nat
  frameCount : Nat
deriving DecidableEq, Repr

/-- Events gathered by Window::pollEvents plus the FrameEvent the viewer
appends after creating a new FrameStamp. -/
inductive Event where
  | frameEvent (stamp : FrameStamp)
  | windowEvent (id : Nat)
deriving DecidableEq, Repr

/-- The slice of the Window collaborator interface Viewer.cpp uses during the
frame advance phase.  acquireResults lists the successive values returned by
repeated acquireNextImage calls of one frame. -/
structure Window where
  visible : Bool
  valid : Bool
  acquireResults : List VkResult
  pendingEvents : List Event
  pollResult : Bool
deriving DecidableEq, Repr

/-- Role of a thread spawned by Viewer::setupThreading: one thread of a
single-command-graph task, or the primary / a secondary thread of a
multi-command-graph task. -/
inductive ThreadKind where
  | single
  | primary
  | secondary
deriving DecidableEq, Repr

/-- The Viewer member state touched by advance / advanceToNextFrame / close /
stopThreading: _close, _status, _threading, the FrameBlock wake flag, the
spawned threads, _windows, _frameStamp and _events. -/
structure ViewerState where
  closeFlag : Bool
  statusActive : Bool
  threading : Bool
  frameBlockWoken : Bool
  threads : List ThreadKind
  windows : List Window
  frameStamp : Option FrameStamp
  events : List Event
deriving DecidableEq, Repr

/-- Recoverable acquire results per the test in Viewer::acquireNextFrame:
VK_ERROR_SURFACE_LOST_KHR, VK_ERROR_DEVICE_LOST, VK_ERROR_OUT_OF_DATE_KHR and
VK_ERROR_FULL_SCREEN_EXCLUSIVE_MODE_LOST_EXT. -/
def isRecoverable : VkResult → Bool
  | VkResult.errorSurfaceLost => true
  | VkResult.errorDeviceLost => true
  | VkResult.errorOutOfDate => true
  | VkResult.errorFullScreenExclusiveModeLost => true
  | _ => false

/-- The inner while loop of Viewer::acquireNextFrame for one window: retry
(after Window::resize) on a recoverable error, stop on success or on any other
error.  Returns none when the supplied result list is exhausted before the
loop exits (the loop would still be running). -/
def acquireLoop : List VkResult → Option VkResult
  | [] => none
  | r :: rest =>
    if r = VkResult.success then some VkResult.success
    else if isRecoverable r then acquireLoop rest
    else some r

/-- The outer for loop of Viewer::acquireNextFrame: the single local variable
result is overwritten by each visible window's acquire loop; invisible windows
are skipped by the continue. -/
def acquireWindows (result : VkResult) : List Window → Option VkResult
  | [] => some result
  | w :: ws =>
    if w.visible then
      match acquireLoop w.acquireResults with
      | some r => acquireWindows r ws
      | none => none
    else
      acquireWindows result ws

/-- Viewer::acquireNextFrame: early-out on _close, then run the acquire loop
over all windows and report whether the final result is VK_SUCCESS. -/
def Viewer.acquireNextFrame (v : ViewerState) : Option Bool :=
  if v.closeFlag then some false
  else
    match acquireWindows VkResult.success v.windows with
    | some r => some (decide (r = VkResult.success))
    | none => none

/-- Viewer::pollEvents: optionally discard previous events, then append every
window's pending events; the returned Bool is the or of the per-window poll
results. -/
def Viewer.pollEvents (v : ViewerState) (discardPreviousEvents : Bool) : ViewerState × Bool :=
  let cleared := if discardPreviousEvents then [] else v.events
  let gathered := v.windows.foldl (fun acc w => acc ++ w.pendingEvents) cleared
  let result := v.windows.foldl (fun acc w => acc || w.pollResult) false
  ({ v with events := gathered }, result)

/-- Viewer::active: the viewer is active when _close is unset and every window
is valid (the deviceWaitIdle side effect on the inactive path is dropped). -/
def Viewer.active (v : ViewerState) : Bool :=
  !v.closeFlag && v.windows.all (fun w => w.valid)

/-- The shared FrameStamp-construction expression of Viewer::advance and
Viewer::advanceToNextFrame: frameCount + 1 when a stamp already exists,
0 for the very first frame. -/
def nextFrameStamp (prev : Option FrameStamp) (time : Nat) : FrameStamp :=
  match prev with
  | some s => { time := time, frameCount := s.frameCount + 1 }
  | none => { time := time, frameCount := 0 }

/-- Viewer::advance: poll events (discarding previous ones), build the next
FrameStamp and append a FrameEvent carrying it. -/
def Viewer.advance (v : ViewerState) (time : Nat) : ViewerState :=
  let v1 := (Viewer.pollEvents v true).1
  let stamp := nextFrameStamp v1.frameStamp time
  { v1 with frameStamp := some stamp, events := v1.events ++ [Event.frameEvent stamp] }

/-- Viewer::advanceToNextFrame: bail out inactive, poll events, acquire the
next image of every visible window, then stamp the frame; none propagates a
non-terminating acquire loop of the model. -/
def Viewer.advanceToNextFrame (v : ViewerState) (time : Nat) : Option (ViewerState × Bool) :=
  if Viewer.active v = false then some (v, false)
  else
    match Viewer.acquireNextFrame (Viewer.pollEvents v true).1 with
    | none => none
    | some false => some ((Viewer.pollEvents v true).1, false)
    | some true =>
      some ({ (Viewer.pollEvents v true).1 with
              frameStamp := some (nextFrameStamp ((Viewer.pollEvents v true).1).frameStamp time),
              events := ((Viewer.pollEvents v true).1).events ++
                [Event.frameEvent (nextFrameStamp ((Viewer.pollEvents v true).1).frameStamp time)] },
            true)

/-- Viewer::stopThreading: early return when no threading session is active;
otherwise clear _threading, clear the activity status, wake the FrameBlock and
join and drop every thread. -/
def Viewer.stopThreading (v : ViewerState) : ViewerState :=
  if v.threading = false then v
  else
    { v with threading := false, statusActive := false,
             frameBlockWoken := true, threads := [] }

/-- Viewer::close: set _close, clear the activity status, stop threading. -/
def Viewer.close (v : ViewerState) : ViewerState :=
  Viewer.stopThreading { v with closeFlag := true, statusActive := false }

/-- Thread topology produced by Viewer::setupThreading.  A task is represented
by the number of command graphs it owns, which is the only task attribute the
topology decision reads; threads records the role of every spawned thread in
creation order and submissionCompletedRequired the party count passed to
Barrier::create for the global submission-completed barrier. -/
structure ThreadingState where
  threading : Bool
  threads : List ThreadKind
  submissionCompletedRequired : Option Nat
deriving DecidableEq, Repr

/-- Threads spawned for one task in the per-task loop of setupThreading: one
single-role thread for a one-graph task, a primary thread plus one secondary
thread per further graph for a multi-graph task, nothing for an empty task. -/
def taskThreads (k : Nat) : List ThreadKind :=
  if k = 1 then [ThreadKind.single]
  else if 1 ≤ k then ThreadKind.primary :: List.replicate (k - 1) ThreadKind.secondary
  else []

/-- Count of tasks with at least one command graph (numValidTasks in
setupThreading). -/
def numValidTasks (tasks : List Nat) : Nat :=
  (tasks.filter (fun k => decide (1 ≤ k))).length

/-- Total count of command graphs across all tasks (numCommandGraphs in
setupThreading). -/
def numCommandGraphs (tasks : List Nat) : Nat :=
  tasks.foldl (fun acc k => acc + k) 0

/-- Viewer::setupThreading: skip entirely when at most one command graph
exists in total, otherwise mark threading active, size the global
submission-completed barrier as 1 + numValidTasks and spawn the per-task
threads in task order. -/
def Viewer.setupThreading (tasks : List Nat) : ThreadingState :=
  if numCommandGraphs tasks ≤ 1 then
    { threading := false, threads := [], submissionCompletedRequired := none }
  else
    { threading := true,
      threads := (tasks.map taskThreads).flatten,
      submissionCompletedRequired := some (1 + numValidTasks tasks) }

/-- Modelled from the spec: the Barrier implementation is not among the
provided source files (Viewer.cpp only calls Barrier::create, arrive_and_wait
and arrive_and_drop), so its state follows spec sections 3 and 4.3: a required
party count fixed at construction and an arrival counter; all parties release
once the arrival counter reaches the required count. -/
structure Barrier where
  required : Nat
  arrived : Nat
deriving DecidableEq, Repr

/-- Barrier::create with the given required party count. -/
def Barrier.create (required : Nat) : Barrier :=
  { required := required, arrived := 0 }

/-- Effect on the barrier state of n arrivals (each arrive_and_wait or
arrive_and_drop call contributes one arrival). -/
def Barrier.arriveMany (b : Barrier) (n : Nat) : Barrier :=
  { b with arrived := b.arrived + n }

/-- Modelled from the spec: the current generation releases exactly when the
arrival counter has reached the required party count. -/
def Barrier.released (b : Barrier) : Bool :=
  decide (b.arrived = b.required)

/-- Actions Viewer::recordAndSubmit performs, in order: publishing a stamp
through FrameBlock::set, blocking on the submission-completed barrier, or a
synchronous RecordAndSubmitTask::submit of one task. -/
inductive SubmitAction where
  | frameBlockSet (stamp : FrameStamp)
  | submissionArriveAndWait
  | taskSubmit (task : Nat) (stamp : FrameStamp)
deriving DecidableEq, Repr

/-- Viewer::recordAndSubmit: with threading active, set the FrameBlock to the
current stamp then arrive-and-wait on the submission-completed barrier;
without threading, call submit on every task of recordAndSubmitTasks in list
order (tasks are represented by identifiers). -/
def Viewer.recordAndSubmit (threading : Bool) (tasks : List Nat) (stamp : FrameStamp) :
    List SubmitAction :=
  if threading then
    [SubmitAction.frameBlockSet stamp, SubmitAction.submissionArriveAndWait]
  else
    tasks.foldl (fun acc t => acc ++ [SubmitAction.taskSubmit t stamp]) []

/-- Barriers used inside the per-frame loop bodies of the threads of one
multi-graph task (the SharedData block of setupThreading). -/
inductive BarrierId where
  | recordStart
  | recordCompleted
  | submissionCompleted
deriving DecidableEq, Repr

/-- Observable steps of the run_primary / run_secondary loop bodies.  An
arrive_and_wait call on a barrier is split into its arrival (arrive) and the
subsequent blocking until the generation releases (waitRelease). -/
inductive Instr where
  | taskStart
  | record
  | addBuffers
  | taskFinish
  | arrive (b : BarrierId)
  | waitRelease (b : BarrierId)
deriving DecidableEq, Repr

/-- One frame iteration of the run_primary lambda of setupThreading:
task->start(), recordStartBarrier->arrive_and_wait(), record into a local
collection, SharedData::add, recordCompletedBarrier->arrive_and_wait(),
task->finish(...), submissionCompletedBarrier->arrive_and_wait(). -/
def primaryProg : List Instr :=
  [Instr.taskStart,
   Instr.arrive BarrierId.recordStart, Instr.waitRelease BarrierId.recordStart,
   Instr.record, Instr.addBuffers,
   Instr.arrive BarrierId.recordCompleted, Instr.waitRelease BarrierId.recordCompleted,
   Instr.taskFinish,
   Instr.arrive BarrierId.submissionCompleted, Instr.waitRelease BarrierId.submissionCompleted]

/-- One frame iteration of the run_secondary lambda of setupThreading:
recordStartBarrier->arrive_and_wait(), record into a local collection,
SharedData::add, recordCompletedBarrier->arrive_and_wait(), then loop back. -/
def secondaryProg : List Instr :=
  [Instr.arrive BarrierId.recordStart, Instr.waitRelease BarrierId.recordStart,
   Instr.record, Instr.addBuffers,
   Instr.arrive BarrierId.recordCompleted, Instr.waitRelease BarrierId.recordCompleted]

/-- Program of thread i in a K-thread group: setupThreading starts thread 0
with run_primary and every other thread with run_secondary. -/
def prog (K : Nat) (i : Fin K) : List Instr :=
  if i.val = 0 then primaryProg else secondaryProg

/-- Thread i has executed instruction ins when ins occurs before its program
counter. -/
def executed (K : Nat) (pcs : Fin K → Nat) (i : Fin K) (ins : Instr) : Prop :=
  ins ∈ (prog K i).take (pcs i)

instance (K : Nat) (pcs : Fin K → Nat) (i : Fin K) (ins : Instr) :
    Decidable (executed K pcs i ins) :=
  inferInstanceAs (Decidable (ins ∈ (prog K i).take (pcs i)))

/-- Every thread of the group has arrived at barrier b.  The recordStart and
recordCompleted barriers are created with required = K (the task's command
graph count), so this is exactly the release condition of spec section 4.3. -/
def allArrived (K : Nat) (pcs : Fin K → Nat) (b : BarrierId) : Prop :=
  ∀ i : Fin K, executed K pcs i (Instr.arrive b)

instance (K : Nat) (pcs : Fin K → Nat) (b : BarrierId) : Decidable (allArrived K pcs b) :=
  inferInstanceAs (Decidable (∀ i : Fin K, executed K pcs i (Instr.arrive b)))

/-- Release condition seen by a thread blocked in waitRelease.  The group
barriers require all K threads of the group; the submission-completed barrier
also involves parties outside the group (the orchestrator and other tasks), so
its release is over-approximated as always possible. -/
def releaseEnabled (K : Nat) (pcs : Fin K → Nat) : BarrierId → Bool
  | BarrierId.recordStart => decide (allArrived K pcs BarrierId.recordStart)
  | BarrierId.recordCompleted => decide (allArrived K pcs BarrierId.recordCompleted)
  | BarrierId.submissionCompleted => true

/-- Whether the given (possibly absent) next instruction can step. -/
def instrEnabled (K : Nat) (pcs : Fin K → Nat) : Option Instr → Bool
  | none => false
  | some (Instr.waitRelease b) => releaseEnabled K pcs b
  | some _ => true

/-- Thread i can step when its next instruction exists and is enabled. -/
def enabled (K : Nat) (pcs : Fin K → Nat) (i : Fin K) : Bool :=
  instrEnabled K pcs ((prog K i).get? (pcs i))

/-- Program counters after thread i executes its next instruction. -/
def stepPcs (K : Nat) (pcs : Fin K → Nat) (i : Fin K) : Fin K → Nat :=
  fun j => if j = i then pcs j + 1 else pcs j

/-- States of one frame iteration of a K-thread group reachable from the
all-threads-at-loop-top state by interleaved execution of enabled threads. -/
inductive Reachable (K : Nat) : (Fin K → Nat) → Prop where
  | init : Reachable K (fun _ => 0)
  | step {pcs : Fin K → Nat} (i : Fin K) :
      Reachable K pcs → enabled K pcs i = true → Reachable K (stepPcs K pcs i)

/-- Subset of the CommandGraph interface read by Viewer.cpp when grouping
graphs into tasks: _device, _queueFamily, _presentFamily and window. -/
structure CommandGraph where
  device : Nat
  queueFamily : Int
  presentFamily : Int
  window : Nat
deriving DecidableEq, Repr

/-- Key of the std::map used by assignRecordAndSubmitTaskAndPresentation,
with its operator< comparing device, then queueFamily, then presentFamily. -/
structure DeviceQueueFamily where
  device : Nat
  queueFamily : Int
  presentFamily : Int
deriving DecidableEq, Repr

/-- Transliteration of DeviceQueueFamily::operator< (device pointers become
device identifiers). -/
def DeviceQueueFamily.ltKey (a b : DeviceQueueFamily) : Bool :=
  if a.device < b.device then true
  else if b.device < a.device then false
  else if a.queueFamily < b.queueFamily then true
  else if b.queueFamily < a.queueFamily then false
  else decide (a.presentFamily < b.presentFamily)

/-- Strict order on map keys as a relation, for sorting. -/
def keyLT (a b : DeviceQueueFamily) : Prop :=
  DeviceQueueFamily.ltKey a b = true

instance : DecidableRel keyLT :=
  fun a b => inferInstanceAs (Decidable (DeviceQueueFamily.ltKey a b = true))

/-- Map key of one command graph. -/
def keyOf (g : CommandGraph) : DeviceQueueFamily :=
  { device := g.device, queueFamily := g.queueFamily, presentFamily := g.presentFamily }

/-- Key set of the std::map deviceCommandGraphsMap in iteration order: the
distinct keys of the input graphs, sorted by operator<. -/
def groupKeys (gs : List CommandGraph) : List DeviceQueueFamily :=
  ((gs.map keyOf).dedup).insertionSort keyLT

/-- Graphs mapped to key k, in input order (std::map::emplace_back preserves
insertion order within one key). -/
def groupOf (gs : List CommandGraph) (k : DeviceQueueFamily) : List CommandGraph :=
  gs.filter (fun g => decide (keyOf g = k))

/-- Sorted distinct windows of a graph group (the std::set uniqueWindows). -/
def uniqueWindows (group : List CommandGraph) : List Nat :=
  ((group.map (fun g => g.window)).dedup).insertionSort (fun a b => a < b)

/-- RecordAndSubmitTask fields set by assignRecordAndSubmitTaskAndPresentation.
The render-finished semaphore created for a presenting group is identified by
the group's key (one fresh semaphore per group). -/
structure RecordAndSubmitTask where
  device : Nat
  commandGraphs : List CommandGraph
  signalSemaphores : List DeviceQueueFamily
  databasePager : Bool
  windows : List Nat
  queueFamily : Int
deriving DecidableEq, Repr

/-- Presentation fields set by assignRecordAndSubmitTaskAndPresentation; its
queue comes from the group's present family on the group's device. -/
structure Presentation where
  device : Nat
  waitSemaphores : List DeviceQueueFamily
  windows : List Nat
  queueFamily : Int
deriving DecidableEq, Repr

/-- Body of the per-group loop of assignRecordAndSubmitTaskAndPresentation:
a presenting group (presentFamily >= 0) gets a task carrying the group's
graphs, the fresh render-finished semaphore and the group's windows, plus a
Presentation sharing that semaphore and those windows; a non-presenting group
gets only a task, with no semaphore and no windows. -/
def assignStep (gs : List CommandGraph) (databasePager : Bool)
    (acc : List RecordAndSubmitTask × List Presentation) (k : DeviceQueueFamily) :
    List RecordAndSubmitTask × List Presentation :=
  if 0 ≤ k.presentFamily then
    (acc.1 ++ [{ device := k.device, commandGraphs := groupOf gs k,
                 signalSemaphores := [k], databasePager := databasePager,
                 windows := uniqueWindows (groupOf gs k), queueFamily := k.queueFamily }],
     acc.2 ++ [{ device := k.device, waitSemaphores := [k],
                 windows := uniqueWindows (groupOf gs k), queueFamily := k.presentFamily }])
  else
    (acc.1 ++ [{ device := k.device, commandGraphs := groupOf gs k,
                 signalSemaphores := [], databasePager := databasePager,
                 windows := [], queueFamily := k.queueFamily }],
     acc.2)

/-- Viewer::assignRecordAndSubmitTaskAndPresentation: group the input graphs
by (device, queueFamily, presentFamily), then build one task, and for
presenting groups one Presentation, per group in map order. -/
def Viewer.assignRecordAndSubmitTaskAndPresentation (gs : List CommandGraph)
    (databasePager : Bool) : List RecordAndSubmitTask × List Presentation :=
  (groupKeys gs).foldl (assignStep gs databasePager) ([], [])

/-- Task attributes read by the databasePager hack of Viewer::compile: the
devices of the task's command graphs in list order, and whether the task has a
databasePager attached. -/
structure CompileTask where
  commandGraphDevices : List Nat
  hasDatabasePager : Bool
deriving DecidableEq, Repr

/-- The for loop with the unconditional break inside Viewer::compile: visit
the task's command graphs in order, assign the pager's compileTraversal from
the map entry of the current graph's device, then break; so only the first
graph's device is ever used.  The per-device CompileTraversal built earlier in
compile is identified here by its device. -/
def pagerAssignLoop : List Nat → Option Nat
  | [] => none
  | d :: _ => some d

/-- Per-task databasePager compileTraversal assignment performed by
Viewer::compile (none when the task has no pager or no command graph). -/
def Viewer.compilePagerAssignments (tasks : List CompileTask) : List (Option Nat) :=
  tasks.map (fun t =>
    if t.hasDatabasePager then pagerAssignLoop t.commandGraphDevices else none)

/-- Task built by the loop body of assignRecordAndSubmitTaskAndPresentation
for the group keyed k. -/
def keyTask (gs : List CommandGraph) (databasePager : Bool) (k : DeviceQueueFamily) :
    RecordAndSubmitTask :=
  if 0 ≤ k.presentFamily then
    { device := k.device, commandGraphs := groupOf gs k,
      signalSemaphores := [k], databasePager := databasePager,
      windows := uniqueWindows (groupOf gs k), queueFamily := k.queueFamily }
  else
    { device := k.device, commandGraphs := groupOf gs k,
      signalSemaphores := [], databasePager := databasePager,
      windows := [], queueFamily := k.queueFamily }

/-- Presentation built by the loop body of
assignRecordAndSubmitTaskAndPresentation for a presenting group keyed k. -/
def keyPres (gs : List CommandGraph) (k : DeviceQueueFamily) : Presentation :=
  { device := k.device, waitSemaphores := [k],
    windows := uniqueWindows (groupOf gs k), queueFamily := k.presentFamily }

/-- Concrete viewer used to witness the frame-count theorems: one already
stamped frame, no windows, not closed. -/
def c5Viewer : ViewerState :=
  { closeFlag := false, statusActive := true, threading := false,
    frameBlockWoken := false, threads := [], windows := [],
    frameStamp := some { time := 0, frameCount := 4 }, events := [] }

/-- State c5Viewer reaches after advanceToNextFrame at time 9. -/
def c5Advanced : ViewerState :=
  { closeFlag := false, statusActive := true, threading := false,
    frameBlockWoken := false, threads := [], windows := [],
    frameStamp := some { time := 9, frameCount := 5 },
    events := [Event.frameEvent { time := 9, frameCount := 5 }] }

/-- Concrete viewer used to witness the first-frame theorems: no stamp yet. -/
def c10Viewer : ViewerState :=
  { closeFlag := false, statusActive := true, threading := false,
    frameBlockWoken := false, threads := [], windows := [],
    frameStamp := none, events := [] }

/-- State c10Viewer reaches after advanceToNextFrame at time 3. -/
def c10Advanced : ViewerState :=
  { closeFlag := false, statusActive := true, threading := false,
    frameBlockWoken := false, threads := [], windows := [],
    frameStamp := some { time := 3, frameCount := 0 },
    events := [Event.frameEvent { time := 3, frameCount := 0 }] }

theorem pollEvents_frameStamp (v : ViewerState) (d : Bool) :
    ((Viewer.pollEvents v d).1).frameStamp = v.frameStamp := rfl

theorem pollEvents_windows (v : ViewerState) (d : Bool) :
    ((Viewer.pollEvents v d).1).windows = v.windows := rfl

theorem pollEvents_closeFlag (v : ViewerState) (d : Bool) :
    ((Viewer.pollEvents v d).1).closeFlag = v.closeFlag := rfl

/-- Characterisation of a successful advanceToNextFrame: the returned state is
the post-pollEvents state with the next FrameStamp installed and a FrameEvent
appended. -/
theorem advanceToNextFrame_true {v : ViewerState} {time : Nat} {v' : ViewerState}
    (h : Viewer.advanceToNextFrame v time = some (v', true)) :
    v' = { (Viewer.pollEvents v true).1 with
           frameStamp := some (nextFrameStamp v.frameStamp time),
           events := ((Viewer.pollEvents v true).1).events ++
             [Event.frameEvent (nextFrameStamp v.frameStamp time)] } := by
  unfold Viewer.advanceToNextFrame at h
  by_cases hact : Viewer.active v = false
  · rw [if_pos hact] at h
    simp at h
  · rw [if_neg hact] at h
    cases hA : Viewer.acquireNextFrame ((Viewer.pollEvents v true).1) with
    | none =>
      rw [hA] at h
      simp at h
    | some b =>
      cases b with
      | false =>
        rw [hA] at h
        simp at h
      | true =>
        rw [hA] at h
        simp only [Option.some.injEq, Prod.mk.injEq, and_true] at h
        exact h.symm

/-- C5: while the viewer is active, advance() and every advanceToNextFrame()
call that returns true create a fresh FrameStamp whose frameCount is the
previous stamp's frameCount plus one; the previous stamp value is superseded,
not mutated (the model constructs a new FrameStamp record). -/
theorem vsg_C5_frame_counts :
    (∀ (v : ViewerState) (time : Nat) (s : FrameStamp),
        v.frameStamp = some s →
        (Viewer.advance v time).frameStamp =
          some { time := time, frameCount := s.frameCount + 1 }) ∧
    (∀ (v : ViewerState) (time : Nat) (s : FrameStamp) (v' : ViewerState),
        v.frameStamp = some s →
        Viewer.advanceToNextFrame v time = some (v', true) →
        v'.frameStamp = some { time := time, frameCount := s.frameCount + 1 }) := by
  constructor
  · intro v time s hs
    simp [Viewer.advance, Viewer.pollEvents, nextFrameStamp, hs]
  · intro v time s v' hs h
    rw [advanceToNextFrame_true h]
    simp [nextFrameStamp, hs]

theorem vsg_C5_witness :
    c5Viewer.frameStamp = some { time := 0, frameCount := 4 } ∧
    (Viewer.advance c5Viewer 9).frameStamp = some { time := 9, frameCount := 5 } ∧
    Viewer.advanceToNextFrame c5Viewer 9 = some (c5Advanced, true) ∧
    c5Advanced.frameStamp = some { time := 9, frameCount := 5 } :=
  ⟨rfl,
   vsg_C5_frame_counts.1 c5Viewer 9 { time := 0, frameCount := 4 } rfl,
   by decide,
   vsg_C5_frame_counts.2 c5Viewer 9 { time := 0, frameCount := 4 } c5Advanced rfl (by decide)⟩

/-- C10: the very first frame (no FrameStamp exists yet) gets frameCount 0,
and a FrameEvent carrying the new stamp is appended to the event queue, both
for advance() and for a successful advanceToNextFrame(). -/
theorem vsg_C10_first_frame :
    (∀ (v : ViewerState) (time : Nat),
        v.frameStamp = none →
        (Viewer.advance v time).frameStamp = some { time := time, frameCount := 0 } ∧
        (Viewer.advance v time).events.getLast? =
          some (Event.frameEvent { time := time, frameCount := 0 })) ∧
    (∀ (v : ViewerState) (time : Nat) (v' : ViewerState),
        v.frameStamp = none →
        Viewer.advanceToNextFrame v time = some (v', true) →
        v'.frameStamp = some { time := time, frameCount := 0 } ∧
        v'.events.getLast? = some (Event.frameEvent { time := time, frameCount := 0 })) := by
  constructor
  · intro v time hs
    constructor
    · simp [Viewer.advance, Viewer.pollEvents, nextFrameStamp, hs]
    · simp [Viewer.advance, Viewer.pollEvents, nextFrameStamp, hs]
  · intro v time v' hs h
    rw [advanceToNextFrame_true h]
    constructor
    · simp [nextFrameStamp, hs]
    · simp [nextFrameStamp, hs]

theorem vsg_C10_witness :
    c10Viewer.frameStamp = none ∧
    (Viewer.advance c10Viewer 3).frameStamp = some { time := 3, frameCount := 0 } ∧
    (Viewer.advance c10Viewer 3).events.getLast? =
      some (Event.frameEvent { time := 3, frameCount := 0 }) ∧
    Viewer.advanceToNextFrame c10Viewer 3 = some (c10Advanced, true) ∧
    c10Advanced.frameStamp = some { time := 3, frameCount := 0 } ∧
    c10Advanced.events.getLast? = some (Event.frameEvent { time := 3, frameCount := 0 }) :=
  ⟨rfl,
   (vsg_C10_first_frame.1 c10Viewer 3 rfl).1,
   (vsg_C10_first_frame.1 c10Viewer 3 rfl).2,
   by decide,
   (vsg_C10_first_frame.2 c10Viewer 3 c10Advanced rfl (by decide)).1,
   (vsg_C10_first_frame.2 c10Viewer 3 c10Advanced rfl (by decide)).2⟩

/-- C8: stopThreading() with no active threading session is a no-op, and
close() is idempotent, leaving the close flag set, the activity status false
and (when a session was running) no threads alive. -/
theorem vsg_C8_stop_close :
    (∀ v : ViewerState, v.threading = false → Viewer.stopThreading v = v) ∧
    (∀ v : ViewerState, Viewer.close (Viewer.close v) = Viewer.close v) ∧
    (∀ v : ViewerState,
        (Viewer.close v).closeFlag = true ∧
        (Viewer.close v).statusActive = false ∧
        (Viewer.close v).threading = false) ∧
    (∀ v : ViewerState, v.threading = true → (Viewer.close v).threads = []) := by
  refine ⟨?_, ?_, ?_, ?_⟩
  · intro v h
    simp [Viewer.stopThreading, h]
  · intro v
    by_cases h : v.threading
    · simp [Viewer.close, Viewer.stopThreading, h]
    · simp [Viewer.close, Viewer.stopThreading, h]
  · intro v
    by_cases h : v.threading
    · simp [Viewer.close, Viewer.stopThreading, h]
    · simp [Viewer.close, Viewer.stopThreading, h]
  · intro v h
    simp [Viewer.close, Viewer.stopThreading, h]

theorem vsg_C8_witness :
    Viewer.stopThreading c10Viewer = c10Viewer ∧
    Viewer.close (Viewer.close c5Viewer) = Viewer.close c5Viewer ∧
    (Viewer.close c5Viewer).closeFlag = true ∧
    (Viewer.close c5Viewer).statusActive = false :=
  ⟨vsg_C8_stop_close.1 c10Viewer rfl,
   vsg_C8_stop_close.2.1 c5Viewer,
   (vsg_C8_stop_close.2.2.1 c5Viewer).1,
   (vsg_C8_stop_close.2.2.1 c5Viewer).2.1⟩

theorem foldl_append_eq_map {α β : Type} (f : α → β) :
    ∀ (l : List α) (acc : List β),
      l.foldl (fun acc t => acc ++ [f t]) acc = acc ++ l.map f := by
  intro l
  induction l with
  | nil => intro acc; simp
  | cons x t ih => intro acc; simp [ih]

/-- C7: recordAndSubmit() dispatches on the threading mode: with threading it
publishes the stamp through the FrameBlock and then blocks on the global
submission-completed barrier (and submits no task itself); without threading
it submits every task synchronously in list order (and touches neither the
FrameBlock nor the barrier). -/
theorem vsg_C7_dispatch :
    (∀ (tasks : List Nat) (stamp : FrameStamp),
        Viewer.recordAndSubmit true tasks stamp =
          [SubmitAction.frameBlockSet stamp, SubmitAction.submissionArriveAndWait]) ∧
    (∀ (tasks : List Nat) (stamp : FrameStamp),
        Viewer.recordAndSubmit false tasks stamp =
          tasks.map (fun t => SubmitAction.taskSubmit t stamp)) ∧
    (∀ (tasks : List Nat) (stamp : FrameStamp) (t : Nat),
        SubmitAction.taskSubmit t stamp ∉ Viewer.recordAndSubmit true tasks stamp) ∧
    (∀ (tasks : List Nat) (stamp : FrameStamp),
        SubmitAction.submissionArriveAndWait ∉ Viewer.recordAndSubmit false tasks stamp) := by
  refine ⟨?_, ?_, ?_, ?_⟩
  · intro tasks stamp; rfl
  · intro tasks stamp
    simp [Viewer.recordAndSubmit, foldl_append_eq_map]
  · intro tasks stamp t
    simp [Viewer.recordAndSubmit]
  · intro tasks stamp
    simp [Viewer.recordAndSubmit, foldl_append_eq_map]

theorem vsg_C7_witness :
    Viewer.recordAndSubmit true [4, 7] { time := 1, frameCount := 2 } =
      [SubmitAction.frameBlockSet { time := 1, frameCount := 2 },
       SubmitAction.submissionArriveAndWait] ∧
    Viewer.recordAndSubmit false [4, 7] { time := 1, frameCount := 2 } =
      [SubmitAction.taskSubmit 4 { time := 1, frameCount := 2 },
       SubmitAction.taskSubmit 7 { time := 1, frameCount := 2 }] ∧
    SubmitAction.taskSubmit 4 { time := 1, frameCount := 2 } ∉
      Viewer.recordAndSubmit true [4, 7] { time := 1, frameCount := 2 } ∧
    SubmitAction.submissionArriveAndWait ∉
      Viewer.recordAndSubmit false [4, 7] { time := 1, frameCount := 2 } :=
  ⟨vsg_C7_dispatch.1 [4, 7] { time := 1, frameCount := 2 },
   vsg_C7_dispatch.2.1 [4, 7] { time := 1, frameCount := 2 },
   vsg_C7_dispatch.2.2.1 [4, 7] { time := 1, frameCount := 2 } 4,
   vsg_C7_dispatch.2.2.2 [4, 7] { time := 1, frameCount := 2 }⟩

/-- C9: for every task that has a databasePager, compile() assigns the pager's
compileTraversal from the device of the task's first command graph only; the
compile context of any other device the task touches is never the one
assigned. -/
theorem vsg_C9_pager_first_device :
    ∀ (tasks : List CompileTask) (i : Nat) (t : CompileTask) (d : Nat) (ds : List Nat),
      tasks[i]? = some t →
      t.hasDatabasePager = true →
      t.commandGraphDevices = d :: ds →
      (Viewer.compilePagerAssignments tasks)[i]? = some (some d) ∧
      ∀ e ∈ ds, e ≠ d →
        (Viewer.compilePagerAssignments tasks)[i]? ≠ some (some e) := by
  intro tasks i t d ds hget hpager hdevs
  have h1 : (Viewer.compilePagerAssignments tasks)[i]? = some (some d) := by
    unfold Viewer.compilePagerAssignments
    rw [List.getElem?_map, hget]
    simp [hpager, hdevs, pagerAssignLoop]
  refine ⟨h1, ?_⟩
  intro e _ hne
  rw [h1]
  simp [hne.symm]

theorem vsg_C9_witness :
    (Viewer.compilePagerAssignments
        [{ commandGraphDevices := [0, 1], hasDatabasePager := true }])[0]? =
      some (some 0) ∧
    (Viewer.compilePagerAssignments
        [{ commandGraphDevices := [0, 1], hasDatabasePager := true }])[0]? ≠
      some (some 1) :=
  ⟨(vsg_C9_pager_first_device
      [{ commandGraphDevices := [0, 1], hasDatabasePager := true }]
      0 { commandGraphDevices := [0, 1], hasDatabasePager := true } 0 [1]
      rfl rfl rfl).1,
   (vsg_C9_pager_first_device
      [{ commandGraphDevices := [0, 1], hasDatabasePager := true }]
      0 { commandGraphDevices := [0, 1], hasDatabasePager := true } 0 [1]
      rfl rfl rfl).2 1 (by simp) (by decide)⟩

theorem foldl_add_shift :
    ∀ (l : List Nat) (a : Nat),
      l.foldl (fun acc k => acc + k) a = a + l.foldl (fun acc k => acc + k) 0 := by
  intro l
  induction l with
  | nil => intro a; simp
  | cons x t ih =>
    intro a
    simp only [List.foldl_cons]
    rw [ih (a + x), ih (0 + x)]
    omega

theorem numCommandGraphs_cons (x : Nat) (t : List Nat) :
    numCommandGraphs (x :: t) = x + numCommandGraphs t := by
  unfold numCommandGraphs
  simp only [List.foldl_cons]
  rw [foldl_add_shift t (0 + x)]
  omega

theorem numCommandGraphs_all_ones :
    ∀ tasks : List Nat, (∀ t ∈ tasks, t = 1) → numCommandGraphs tasks = tasks.length := by
  intro tasks
  induction tasks with
  | nil => intro _; rfl
  | cons x t ih =>
    intro h
    rw [numCommandGraphs_cons, h x (by simp), ih (fun u hu => h u (by simp [hu]))]
    simp [Nat.add_comm]

theorem taskThreads_ones_flatten :
    ∀ tasks : List Nat, (∀ t ∈ tasks, t = 1) →
      (tasks.map taskThreads).flatten = List.replicate tasks.length ThreadKind.single := by
  intro tasks
  induction tasks with
  | nil => intro _; rfl
  | cons x t ih =>
    intro h
    have hx : x = 1 := h x (by simp)
    subst hx
    simp only [List.map_cons, List.flatten_cons, List.length_cons, List.replicate_succ]
    rw [ih (fun u hu => h u (by simp [hu]))]
    rfl

/-- C2: topology selection by setupThreading() is a deterministic function of
the task shapes: at most one command graph in total means no threads and
threading off; one task with K greater or equal 2 graphs means K threads, one
primary and K-1 secondary; several one-graph tasks mean one thread per task. -/
theorem vsg_C2_topology :
    (∀ tasks : List Nat, numCommandGraphs tasks ≤ 1 →
        Viewer.setupThreading tasks =
          { threading := false, threads := [], submissionCompletedRequired := none }) ∧
    (∀ k : Nat, 2 ≤ k →
        (Viewer.setupThreading [k]).threading = true ∧
        (Viewer.setupThreading [k]).threads.length = k ∧
        (Viewer.setupThreading [k]).threads.count ThreadKind.primary = 1 ∧
        (Viewer.setupThreading [k]).threads.count ThreadKind.secondary = k - 1) ∧
    (∀ tasks : List Nat, 2 ≤ tasks.length → (∀ t ∈ tasks, t = 1) →
        (Viewer.setupThreading tasks).threading = true ∧
        (Viewer.setupThreading tasks).threads =
          List.replicate tasks.length ThreadKind.single) := by
  refine ⟨?_, ?_, ?_⟩
  · intro tasks h
    simp [Viewer.setupThreading, h]
  · intro k hk
    have hn : numCommandGraphs [k] = k := by
      rw [numCommandGraphs_cons]; rfl
    have hcond : ¬ numCommandGraphs [k] ≤ 1 := by omega
    have hk1 : ¬ k = 1 := by omega
    have hk2 : 1 ≤ k := by omega
    have hthreads : (Viewer.setupThreading [k]).threads =
        ThreadKind.primary :: List.replicate (k - 1) ThreadKind.secondary := by
      simp only [Viewer.setupThreading, if_neg hcond]
      simp [taskThreads, hk1, hk2]
    refine ⟨by simp [Viewer.setupThreading, if_neg hcond], ?_, ?_, ?_⟩
    · rw [hthreads]; simp; omega
    · rw [hthreads]
      simp [List.count_cons, List.count_replicate]
    · rw [hthreads]
      simp [List.count_cons, List.count_replicate]
  · intro tasks hlen hones
    have hn : numCommandGraphs tasks = tasks.length := numCommandGraphs_all_ones tasks hones
    have hcond : ¬ numCommandGraphs tasks ≤ 1 := by omega
    constructor
    · simp [Viewer.setupThreading, if_neg hcond]
    · simp only [Viewer.setupThreading, if_neg hcond]
      exact taskThreads_ones_flatten tasks hones

theorem vsg_C2_witness :
    Viewer.setupThreading [1] =
      { threading := false, threads := [], submissionCompletedRequired := none } ∧
    (Viewer.setupThreading [3]).threading = true ∧
    (Viewer.setupThreading [3]).threads.length = 3 ∧
    (Viewer.setupThreading [3]).threads.count ThreadKind.primary = 1 ∧
    (Viewer.setupThreading [3]).threads.count ThreadKind.secondary = 2 ∧
    (Viewer.setupThreading [1, 1]).threading = true ∧
    (Viewer.setupThreading [1, 1]).threads = List.replicate 2 ThreadKind.single :=
  ⟨vsg_C2_topology.1 [1] (by decide),
   (vsg_C2_topology.2.1 3 (by decide)).1,
   (vsg_C2_topology.2.1 3 (by decide)).2.1,
   (vsg_C2_topology.2.1 3 (by decide)).2.2.1,
   (vsg_C2_topology.2.1 3 (by decide)).2.2.2,
   (vsg_C2_topology.2.2 [1, 1] (by decide) (by decide)).1,
   (vsg_C2_topology.2.2 [1, 1] (by decide) (by decide)).2⟩

/-- C3 as stated is false: for two valid tasks the submission-completed
barrier is created with required party count 1 + numValidTasks = 3, not 2. -/
theorem vsg_C3_counterexample :
    (Viewer.setupThreading [1, 1]).submissionCompletedRequired ≠ some 2 := by
  decide

/-- C3 amended: with exactly 2 valid tasks the global submission-completed
barrier is created with required party count 1 + numValidTasks = 3 (one
contribution per valid task plus one for the orchestrator itself), and it
releases only once all three arrivals — the orchestrator's own arrive_and_wait
plus one contribution per task — have happened: after the orchestrator and a
single task (2 arrivals) it is still blocked. -/
theorem vsg_C3_amended :
    ∀ k1 k2 : Nat, 1 ≤ k1 → 1 ≤ k2 →
      (Viewer.setupThreading [k1, k2]).submissionCompletedRequired = some 3 ∧
      ((Barrier.create 3).arriveMany 2).released = false ∧
      ((Barrier.create 3).arriveMany 3).released = true := by
  intro k1 k2 h1 h2
  have hn : numCommandGraphs [k1, k2] = k1 + k2 := by
    rw [numCommandGraphs_cons, numCommandGraphs_cons]
    rfl
  have hcond : ¬ numCommandGraphs [k1, k2] ≤ 1 := by omega
  have hvalid : numValidTasks [k1, k2] = 2 := by
    unfold numValidTasks
    have d1 : decide (1 ≤ k1) = true := decide_eq_true h1
    have d2 : decide (1 ≤ k2) = true := decide_eq_true h2
    simp [List.filter, d1, d2]
  refine ⟨?_, by decide, by decide⟩
  simp [Viewer.setupThreading, if_neg hcond, hvalid]

theorem vsg_C3_witness :
    (Viewer.setupThreading [1, 1]).submissionCompletedRequired = some 3 ∧
    ((Barrier.create 3).arriveMany 2).released = false ∧
    ((Barrier.create 3).arriveMany 3).released = true :=
  vsg_C3_amended 1 1 (by decide) (by decide)

theorem acquireWindows_visible_filter :
    ∀ (ws : List Window) (r0 : VkResult),
      acquireWindows r0 ws = acquireWindows r0 (ws.filter (fun w => w.visible)) := by
  intro ws
  induction ws with
  | nil => intro r0; rfl
  | cons w t ih =>
    intro r0
    by_cases hv : w.visible
    · simp only [List.filter_cons, hv, if_true, acquireWindows]
      cases hL : acquireLoop w.acquireResults with
      | none => rfl
      | some r => exact ih r
    · simp only [List.filter_cons, acquireWindows, hv]
      simp only [Bool.false_eq_true, if_false]
      exact ih r0

theorem acquireWindows_last :
    ∀ (ws : List Window) (w : Window) (r0 r : VkResult),
      (∀ u ∈ ws, u.visible = true) → w.visible = true →
      (∀ u ∈ ws, (acquireLoop u.acquireResults).isSome = true) →
      acquireLoop w.acquireResults = some r →
      acquireWindows r0 (ws ++ [w]) = some r := by
  intro ws
  induction ws with
  | nil =>
    intro w r0 r _ hw _ hr
    simp [acquireWindows, hw, hr]
  | cons u t ih =>
    intro w r0 r hvis hw hterm hr
    have hu : u.visible = true := hvis u (by simp)
    obtain ⟨ru, hru⟩ : ∃ ru, acquireLoop u.acquireResults = some ru :=
      Option.isSome_iff_exists.mp (hterm u (by simp))
    simp only [List.cons_append, acquireWindows, hu, if_true, hru]
    exact ih w ru r (fun x hx => hvis x (by simp [hx])) hw
      (fun x hx => hterm x (by simp [hx])) hr

/-- Acquire outcome of a viewer whose last visible window's acquire loop exits
with r: the final result is r, whatever happened on the earlier windows. -/
theorem acquireNextFrame_last (v : ViewerState) (ws : List Window) (w : Window)
    (r : VkResult) (hclose : v.closeFlag = false)
    (hfilter : v.windows.filter (fun u => u.visible) = ws ++ [w])
    (hterm : ∀ u ∈ ws, (acquireLoop u.acquireResults).isSome = true)
    (hr : acquireLoop w.acquireResults = some r) :
    Viewer.acquireNextFrame v = some (decide (r = VkResult.success)) := by
  have hvis : ∀ u ∈ ws ++ [w], u.visible = true := by
    intro u hu
    rw [← hfilter] at hu
    exact (List.mem_filter.mp hu).2
  have hA : acquireWindows VkResult.success v.windows = some r := by
    rw [acquireWindows_visible_filter, hfilter]
    exact acquireWindows_last ws w VkResult.success r
      (fun u hu => hvis u (by simp [hu])) (hvis w (by simp)) hterm hr
  unfold Viewer.acquireNextFrame
  rw [hA]
  simp [hclose]

/-- C1 amended: an unrecoverable acquireNextImage failure abandons that
window's acquire loop, but the frame is reported inactive only when the final
result after iterating all windows is not VK_SUCCESS — that is, exactly when
the acquire loop of the LAST visible window exits with a failure; an
unrecoverable failure on an earlier visible window is masked by a later
window's outcome.  Part one: the acquire step's outcome equals the last
visible window's loop exit.  Part two: when that last exit is a failure and
the viewer is active, advanceToNextFrame reports the frame inactive. -/
theorem vsg_C1_amended :
    (∀ (v : ViewerState) (ws : List Window) (w : Window) (r : VkResult),
        v.closeFlag = false →
        v.windows.filter (fun u => u.visible) = ws ++ [w] →
        (∀ u ∈ ws, (acquireLoop u.acquireResults).isSome = true) →
        acquireLoop w.acquireResults = some r →
        Viewer.acquireNextFrame v = some (decide (r = VkResult.success))) ∧
    (∀ (v : ViewerState) (time : Nat) (ws : List Window) (w : Window) (r : VkResult),
        Viewer.active v = true →
        v.windows.filter (fun u => u.visible) = ws ++ [w] →
        (∀ u ∈ ws, (acquireLoop u.acquireResults).isSome = true) →
        acquireLoop w.acquireResults = some r →
        r ≠ VkResult.success →
        (Viewer.advanceToNextFrame v time).map (fun p => p.2) = some false) := by
  constructor
  · intro v ws w r hclose hfilter hterm hr
    exact acquireNextFrame_last v ws w r hclose hfilter hterm hr
  · intro v time ws w r hactive hfilter hterm hr hne
    have hclose : v.closeFlag = false := by
      unfold Viewer.active at hactive
      simp only [Bool.and_eq_true, Bool.not_eq_true'] at hactive
      exact hactive.1
    have hacq : Viewer.acquireNextFrame ((Viewer.pollEvents v true).1) = some false := by
      have h := acquireNextFrame_last ((Viewer.pollEvents v true).1) ws w r
        (by rw [pollEvents_closeFlag]; exact hclose)
        (by rw [pollEvents_windows]; exact hfilter) hterm hr
      rw [h]
      simp [hne]
    unfold Viewer.advanceToNextFrame
    rw [hactive]
    simp only [Bool.true_eq_false, if_false]
    rw [hacq]
    rfl

/-- Windows of the C1 counterexample: the first visible window fails with an
unrecoverable error, the second visible window acquires successfully. -/
def c1WindowBad : Window :=
  { visible := true, valid := true, acquireResults := [VkResult.otherError 7],
    pendingEvents := [], pollResult := false }

def c1WindowGood : Window :=
  { visible := true, valid := true, acquireResults := [VkResult.success],
    pendingEvents := [], pollResult := false }

def c1Viewer : ViewerState :=
  { closeFlag := false, statusActive := true, threading := false,
    frameBlockWoken := false, threads := [], windows := [c1WindowBad, c1WindowGood],
    frameStamp := none, events := [] }

/-- C1 as stated is false: the first visible window's acquireNextImage returns
the unrecoverable error 7 (not in the recoverable set), yet because the second
visible window then acquires successfully the final result is VK_SUCCESS and
advanceToNextFrame returns true — the frame is NOT reported inactive. -/
theorem vsg_C1_counterexample :
    c1WindowBad.visible = true ∧
    acquireLoop c1WindowBad.acquireResults = some (VkResult.otherError 7) ∧
    isRecoverable (VkResult.otherError 7) = false ∧
    (Viewer.advanceToNextFrame c1Viewer 0).map (fun p => p.2) = some true := by
  refine ⟨rfl, rfl, rfl, ?_⟩
  decide

/-- Window of the C1 witness: the last (and only) visible window retries once
on a recoverable error and then fails unrecoverably. -/
def c1wWindow : Window :=
  { visible := true, valid := true,
    acquireResults := [VkResult.errorOutOfDate, VkResult.otherError 3],
    pendingEvents := [], pollResult := false }

def c1wHidden : Window :=
  { visible := false, valid := true, acquireResults := [],
    pendingEvents := [], pollResult := false }

def c1wViewer : ViewerState :=
  { closeFlag := false, statusActive := true, threading := false,
    frameBlockWoken := false, threads := [], windows := [c1wHidden, c1wWindow],
    frameStamp := none, events := [] }

theorem vsg_C1_witness :
    Viewer.acquireNextFrame c1wViewer =
      some (decide (VkResult.otherError 3 = VkResult.success)) ∧
    (Viewer.advanceToNextFrame c1wViewer 0).map (fun p => p.2) = some false :=
  ⟨vsg_C1_amended.1 c1wViewer [] c1wWindow (VkResult.otherError 3)
     rfl (by decide) (by intro u hu; simp at hu) (by decide),
   vsg_C1_amended.2 c1wViewer 0 [] c1wWindow (VkResult.otherError 3)
     (by decide) (by decide) (by intro u hu; simp at hu) (by decide) (by decide)⟩

theorem keyTask_commandGraphs (gs : List CommandGraph) (p : Bool) (k : DeviceQueueFamily) :
    (keyTask gs p k).commandGraphs = groupOf gs k := by
  unfold keyTask
  split <;> rfl

theorem assignStep_eq (gs : List CommandGraph) (p : Bool)
    (acc : List RecordAndSubmitTask × List Presentation) (k : DeviceQueueFamily) :
    assignStep gs p acc k =
      (acc.1 ++ [keyTask gs p k],
       acc.2 ++ if 0 ≤ k.presentFamily then [keyPres gs k] else []) := by
  unfold assignStep keyTask keyPres
  split
  · rfl
  · simp

theorem assign_foldl (gs : List CommandGraph) (p : Bool) :
    ∀ (keys : List DeviceQueueFamily) (acc : List RecordAndSubmitTask × List Presentation),
      keys.foldl (assignStep gs p) acc =
        (acc.1 ++ keys.map (keyTask gs p),
         acc.2 ++ (keys.filter (fun k => decide (0 ≤ k.presentFamily))).map (keyPres gs)) := by
  intro keys
  induction keys with
  | nil => intro acc; simp
  | cons k t ih =>
    intro acc
    rw [List.foldl_cons, assignStep_eq, ih]
    by_cases hk : 0 ≤ k.presentFamily
    · simp [hk, List.filter_cons]
    · simp [hk, List.filter_cons]

theorem groupKeys_nodup (gs : List CommandGraph) : (groupKeys gs).Nodup := by
  unfold groupKeys
  exact (List.perm_insertionSort keyLT (gs.map keyOf).dedup).symm.nodup (List.nodup_dedup _)

theorem mem_groupKeys {gs : List CommandGraph} {k : DeviceQueueFamily} :
    k ∈ groupKeys gs ↔ k ∈ gs.map keyOf := by
  unfold groupKeys
  rw [((gs.map keyOf).dedup.perm_insertionSort keyLT).mem_iff, List.mem_dedup]

/-- C6 amended: assignRecordAndSubmitTaskAndPresentation groups the input
command graphs by the full (device, queueFamily, presentFamily) triple — not
merely by device+queue-family pair — and creates exactly one
RecordAndSubmitTask per triple group holding exactly that group's graphs; for
each group whose presentFamily is at least 0 it creates exactly one
Presentation alongside the task, sharing the task's render-finished semaphore
and windows; groups with no present family get a task but no Presentation. -/
theorem vsg_C6_amended :
    ∀ (gs : List CommandGraph) (pager : Bool),
      (Viewer.assignRecordAndSubmitTaskAndPresentation gs pager).1.map
          (fun t => t.commandGraphs) = (groupKeys gs).map (groupOf gs) ∧
      (groupKeys gs).Nodup ∧
      (∀ g ∈ gs, keyOf g ∈ groupKeys gs) ∧
      (Viewer.assignRecordAndSubmitTaskAndPresentation gs pager).2 =
        ((groupKeys gs).filter (fun k => decide (0 ≤ k.presentFamily))).map (keyPres gs) ∧
      (∀ k ∈ groupKeys gs, 0 ≤ k.presentFamily →
          ∃ t, t ∈ (Viewer.assignRecordAndSubmitTaskAndPresentation gs pager).1 ∧
            t.commandGraphs = groupOf gs k ∧
            (keyPres gs k).waitSemaphores = t.signalSemaphores ∧
            (keyPres gs k).windows = t.windows) := by
  intro gs pager
  have hfold := assign_foldl gs pager (groupKeys gs) ([], [])
  refine ⟨?_, groupKeys_nodup gs, ?_, ?_, ?_⟩
  · unfold Viewer.assignRecordAndSubmitTaskAndPresentation
    rw [hfold]
    simp [List.map_map, Function.comp, keyTask_commandGraphs]
  · intro g hg
    exact mem_groupKeys.mpr (List.mem_map_of_mem keyOf hg)
  · unfold Viewer.assignRecordAndSubmitTaskAndPresentation
    rw [hfold]
    simp
  · intro k hk hpres
    refine ⟨keyTask gs pager k, ?_, keyTask_commandGraphs gs pager k, ?_, ?_⟩
    · unfold Viewer.assignRecordAndSubmitTaskAndPresentation
      rw [hfold]
      simp only [List.nil_append]
      exact List.mem_map_of_mem (keyTask gs pager) hk
    · unfold keyTask keyPres
      rw [if_pos hpres]
    · unfold keyTask keyPres
      rw [if_pos hpres]

/-- Command graphs of the C6 counterexample: same device 0 and same queue
family 0, but one graph has no present family while the other presents. -/
def c6cgA : CommandGraph :=
  { device := 0, queueFamily := 0, presentFamily := -1, window := 0 }

def c6cgB : CommandGraph :=
  { device := 0, queueFamily := 0, presentFamily := 1, window := 5 }

def c6Shared : List CommandGraph := [c6cgA, c6cgB]

/-- C6 as stated is false: two command graphs sharing the device+queue-family
pair (0, 0) do NOT end up in one RecordAndSubmitTask — the grouping key also
contains the present family, so two tasks are created and no task holds both
graphs. -/
theorem vsg_C6_counterexample :
    c6cgA.device = c6cgB.device ∧
    c6cgA.queueFamily = c6cgB.queueFamily ∧
    (Viewer.assignRecordAndSubmitTaskAndPresentation c6Shared false).1.length = 2 ∧
    ((Viewer.assignRecordAndSubmitTaskAndPresentation c6Shared false).1.filter
        (fun t => decide (c6cgA ∈ t.commandGraphs) &&
                  decide (c6cgB ∈ t.commandGraphs))).length = 0 := by
  refine ⟨rfl, rfl, ?_, ?_⟩
  · decide
  · decide

def c6g1 : CommandGraph :=
  { device := 0, queueFamily := 0, presentFamily := 1, window := 7 }

def c6g2 : CommandGraph :=
  { device := 1, queueFamily := 2, presentFamily := -1, window := 3 }

def c6gs : List CommandGraph := [c6g1, c6g2]

theorem vsg_C6_witness :
    (Viewer.assignRecordAndSubmitTaskAndPresentation c6gs true).1.map
        (fun t => t.commandGraphs) = (groupKeys c6gs).map (groupOf c6gs) ∧
    keyOf c6g1 ∈ groupKeys c6gs ∧
    (Viewer.assignRecordAndSubmitTaskAndPresentation c6gs true).2 =
      ((groupKeys c6gs).filter (fun k => decide (0 ≤ k.presentFamily))).map (keyPres c6gs) ∧
    (∃ t, t ∈ (Viewer.assignRecordAndSubmitTaskAndPresentation c6gs true).1 ∧
        t.commandGraphs = groupOf c6gs (keyOf c6g1) ∧
        (keyPres c6gs (keyOf c6g1)).waitSemaphores = t.signalSemaphores ∧
        (keyPres c6gs (keyOf c6g1)).windows = t.windows) :=
  ⟨(vsg_C6_amended c6gs true).1,
   (vsg_C6_amended c6gs true).2.2.1 c6g1 (by simp [c6gs]),
   (vsg_C6_amended c6gs true).2.2.2.1,
   (vsg_C6_amended c6gs true).2.2.2.2 (keyOf c6g1)
     ((vsg_C6_amended c6gs true).2.2.1 c6g1 (by simp [c6gs])) (by decide)⟩

theorem mem_take_mono {α : Type} (x : α) :
    ∀ (l : List α) (m n : Nat), m ≤ n → x ∈ l.take m → x ∈ l.take n := by
  intro l
  induction l with
  | nil =>
    intro m n _ h
    simp at h
  | cons a t ih =>
    intro m n hmn h
    cases m with
    | zero => simp at h
    | succ m =>
      cases n with
      | zero => omega
      | succ n =>
        simp only [List.take_succ_cons, List.mem_cons] at h ⊢
        cases h with
        | inl he => exact Or.inl he
        | inr ht => exact Or.inr (ih m n (by omega) ht)

theorem stepPcs_le (K : Nat) (pcs : Fin K → Nat) (i j : Fin K) :
    pcs j ≤ stepPcs K pcs i j := by
  simp only [stepPcs]
  split <;> omega

theorem executed_mono {K : Nat} {pcs pcsB : Fin K → Nat} {i : Fin K} {ins : Instr}
    (hle : ∀ j, pcs j ≤ pcsB j) (h : executed K pcs i ins) : executed K pcsB i ins :=
  mem_take_mono ins (prog K i) (pcs i) (pcsB i) (hle i) h

theorem allArrived_mono {K : Nat} {pcs pcsB : Fin K → Nat} {b : BarrierId}
    (hle : ∀ j, pcs j ≤ pcsB j) (h : allArrived K pcs b) : allArrived K pcsB b :=
  fun i => executed_mono hle (h i)

theorem taskFinish_take (n : Nat) (h : Instr.taskFinish ∈ primaryProg.take n) : 8 ≤ n := by
  by_contra hn
  have h7 : Instr.taskFinish ∈ primaryProg.take 7 :=
    mem_take_mono Instr.taskFinish primaryProg n 7 (by omega) h
  exact absurd h7 (by decide)

/-- Invariant of the K-thread group interleaving: once the primary thread has
passed the waitRelease of the recordCompleted barrier (program counter at
least 7), every thread of the group has arrived at that barrier. -/
theorem reach_recordCompleted_inv (K : Nat) (pcs : Fin K → Nat)
    (h : Reachable K pcs) :
    ∀ i : Fin K, i.val = 0 → 7 ≤ pcs i → allArrived K pcs BarrierId.recordCompleted := by
  induction h with
  | init =>
    intro i _ h7
    simp at h7
  | step j hreach hen ih =>
    rename_i pcs0
    intro i h0 h7
    have hle : ∀ x, pcs0 x ≤ stepPcs K pcs0 j x := fun x => stepPcs_le K pcs0 j x
    by_cases hij : i = j
    · subst hij
      have hpc : 7 ≤ pcs0 i + 1 := by
        simpa [stepPcs] using h7
      by_cases h7p : 7 ≤ pcs0 i
      · exact allArrived_mono hle (ih i h0 h7p)
      · have h6 : pcs0 i = 6 := by omega
        have hprog : prog K i = primaryProg := by simp [prog, h0]
        have hget : (prog K i).get? (pcs0 i) =
            some (Instr.waitRelease BarrierId.recordCompleted) := by
          rw [hprog, h6]
          rfl
        unfold enabled at hen
        rw [hget] at hen
        simp only [instrEnabled, releaseEnabled] at hen
        exact allArrived_mono hle (of_decide_eq_true hen)
    · have hstep : stepPcs K pcs0 j i = pcs0 i := by
        simp [stepPcs, hij]
      rw [hstep] at h7
      exact allArrived_mono hle (ih i h0 h7)

/-- C4 amended: in the per-frame loop of a multi-graph task's thread group,
only the designated primary thread ever calls task.start() and task.finish()
— secondary threads call neither and loop back to waiting — and finish() is
called only after all K threads of the group have rendezvoused (arrived) at
the recordCompleted barrier for that frame; start(), however, is the very
first action of the primary's iteration, executed BEFORE the recordStart
rendezvous, not after the recordCompleted one. -/
theorem vsg_C4_amended :
    (Instr.taskStart ∈ primaryProg ∧ Instr.taskFinish ∈ primaryProg ∧
     Instr.taskStart ∉ secondaryProg ∧ Instr.taskFinish ∉ secondaryProg) ∧
    (∀ (K : Nat) (pcs : Fin K → Nat) (i : Fin K),
        Reachable K pcs → i.val = 0 → executed K pcs i Instr.taskFinish →
        allArrived K pcs BarrierId.recordCompleted) ∧
    primaryProg.take 1 = [Instr.taskStart] := by
  refine ⟨by decide, ?_, by decide⟩
  intro K pcs i hreach h0 hfin
  have h8 : 8 ≤ pcs i := by
    have hprog : prog K i = primaryProg := by simp [prog, h0]
    unfold executed at hfin
    rw [hprog] at hfin
    exact taskFinish_take (pcs i) hfin
  exact reach_recordCompleted_inv K pcs hreach i h0 (by omega)

/-- C4 as stated is false: one step into a 2-thread group's frame iteration
the primary thread has already executed task.start(), while no thread has yet
arrived at the recordCompleted barrier — so start() is not called only after
the recordCompleted rendezvous. -/
theorem vsg_C4_counterexample :
    Reachable 2 (stepPcs 2 (fun _ => 0) (0 : Fin 2)) ∧
    executed 2 (stepPcs 2 (fun _ => 0) (0 : Fin 2)) (0 : Fin 2) Instr.taskStart ∧
    ¬ allArrived 2 (stepPcs 2 (fun _ => 0) (0 : Fin 2)) BarrierId.recordCompleted := by
  refine ⟨Reachable.step (0 : Fin 2) Reachable.init (by decide), by decide, by decide⟩

/-- Program counters of a complete solo run (K = 1) of the primary thread up
to and including task.finish(). -/
def c4Run : Fin 1 → Nat :=
  stepPcs 1 (stepPcs 1 (stepPcs 1 (stepPcs 1 (stepPcs 1 (stepPcs 1 (stepPcs 1 (stepPcs 1
    (fun _ => 0) 0) 0) 0) 0) 0) 0) 0) 0

theorem c4Run_reachable : Reachable 1 c4Run :=
  Reachable.step 0 (Reachable.step 0 (Reachable.step 0 (Reachable.step 0 (Reachable.step 0
    (Reachable.step 0 (Reachable.step 0 (Reachable.step 0 Reachable.init
      (by decide)) (by decide)) (by decide)) (by decide)) (by decide)) (by decide))
      (by decide)) (by decide)

theorem vsg_C4_witness :
    Reachable 1 c4Run ∧
    executed 1 c4Run (0 : Fin 1) Instr.taskFinish ∧
    allArrived 1 c4Run BarrierId.recordCompleted :=
  ⟨c4Run_reachable, by decide,
   vsg_C4_amended.2.1 1 c4Run (0 : Fin 1) c4Run_reachable rfl (by decide)⟩

end VSG
